import Mathlib

/-
Shallow embedding of the transit_talk repository core (src/go_api_simu.py):
the GoAPISimulator class, its data-loading filters, the stop resolver
(get_stop_id), the trip assembler (get_trip_info), the delay-log snapshot,
and the numeric utilities (Haversine distance, cosine similarity).

Modelling conventions:
  - pandas DataFrames become Lean lists of structure rows, in physical
    row order; the default RangeIndex means row labels coincide with
    positions, so Series.idxmin and Series.idxmax give first-minimal and
    first-maximal positions.
  - Python floats become real numbers; Python strings become String;
    nullable columns become Option.
  - Python exceptions are modelled by an Except result; every exception
    the simulator raises is a ValueError carrying a message.
  - pandas Timestamps become integers (seconds since the Unix epoch);
    the dt.date accessor becomes flooring division by 86400, and the
    date literals datetime.date(2018, 3, 1) and datetime.date(2018, 3, 8)
    become the epoch day numbers 17591 and 17598.
-/

namespace TransitTalk

/-- Every failure the simulator raises in Python is a ValueError with a
message string. -/
inductive PyError where
| valueError (msg : String)
deriving DecidableEq, Repr

/-- One row of stops.csv: stop identifier, name, coordinates and the
pre-computed embedding vector (parsed by ast.literal_eval). -/
structure Stop where
  stop_id : String
  stop_name : String
  stop_lat : ℝ
  stop_lon : ℝ
  embedding : List ℝ

/-- One row of stop_times.txt. The stop_headsign column is nullable. -/
structure StopTime where
  trip_id : String
  stop_id : String
  stop_sequence : ℤ
  arrival_time : String
  departure_time : String
  stop_headsign : Option String
deriving DecidableEq, Repr

/-- One row of calendar_dates.txt; only the service_id column is read. -/
structure CalendarDate where
  service_id : ℤ
deriving DecidableEq, Repr

/-- One row of trips.txt; only these three columns are read. -/
structure Trip where
  trip_id : String
  service_id : ℤ
  route_id : String
deriving DecidableEq, Repr

/-- One row of L101.csv, the primary delay log. OperationDateTime is
parsed as a timestamp; DelayCode is nullable. -/
structure L101Row where
  TripId : String
  OperationDateTime : ℤ
  CorridorId : String
  DelayCode : Option ℤ
deriving DecidableEq, Repr

/-- One row of L102.csv, the secondary delay log joined on TripId. -/
structure L102Row where
  TripId : String
  Equipment : String
deriving DecidableEq, Repr

/-- One row of DelayCodeInfo.csv, the delay-code reference table. -/
structure DelayCodeInfoRow where
  DelayCode : ℤ
  Description : String
deriving DecidableEq, Repr

/-- One row of the merged delay-log table produced by merge_data: the
L101 columns plus the (left-joined, hence nullable) L102 and
DelayCodeInfo columns. -/
structure DelayLogRow where
  TripId : String
  OperationDateTime : ℤ
  CorridorId : String
  DelayCode : Option ℤ
  Equipment : Option String
  Description : Option String
deriving DecidableEq, Repr

/-- pandas left merge of two tables on a key: every left row is kept in
order; a left row with k matching right rows fans out into k result rows
(in right-table order), and with no match yields one row whose
right-hand columns are null. -/
def leftMergeL102 (l101_df : List L101Row) (l102_df : List L102Row) :
    List (L101Row × Option String) :=
  l101_df.flatMap (fun a =>
    match l102_df.filter (fun b => b.TripId == a.TripId) with
    | [] => [(a, none)]
    | bs => bs.map (fun b => (a, some b.Equipment)))

/-- Second left merge of merge_data, attaching DelayCodeInfo on the
DelayCode column. A null DelayCode matches nothing (pandas NaN keys
never join), leaving a null Description. -/
def leftMergeDelayCode (step1 : List (L101Row × Option String))
    (delay_code_info_df : List DelayCodeInfoRow) : List DelayLogRow :=
  step1.flatMap (fun p =>
    match delay_code_info_df.filter (fun c => some c.DelayCode == p.1.DelayCode) with
    | [] => [{ TripId := p.1.TripId, OperationDateTime := p.1.OperationDateTime,
               CorridorId := p.1.CorridorId, DelayCode := p.1.DelayCode,
               Equipment := p.2, Description := none }]
    | cs => cs.map (fun c =>
        { TripId := p.1.TripId, OperationDateTime := p.1.OperationDateTime,
          CorridorId := p.1.CorridorId, DelayCode := p.1.DelayCode,
          Equipment := p.2, Description := some c.Description }))

/-- merge_data: left-merge L101 and L102 on TripId, then left-merge the
delay-code reference table on DelayCode. -/
def merge_data (l101_df : List L101Row) (l102_df : List L102Row)
    (delay_code_info_df : List DelayCodeInfoRow) : List DelayLogRow :=
  leftMergeDelayCode (leftMergeL102 l101_df l102_df) delay_code_info_df

/-- math.radians: degrees to radians. -/
noncomputable def radians (x : ℝ) : ℝ := x * Real.pi / 180

/-- math.atan2 with its usual quadrant conventions. -/
noncomputable def atan2 (y x : ℝ) : ℝ :=
  if 0 < x then Real.arctan (y / x)
  else if x < 0 ∧ 0 ≤ y then Real.arctan (y / x) + Real.pi
  else if x < 0 ∧ y < 0 then Real.arctan (y / x) - Real.pi
  else if 0 < y then Real.pi / 2
  else if y < 0 then -(Real.pi / 2)
  else 0

/-- GoAPISimulator.calculate_distance: Haversine distance in km with
Earth radius 6371.0. -/
noncomputable def calculate_distance (lat1 lon1 lat2 lon2 : ℝ) : ℝ :=
  let r : ℝ := 6371.0
  let dlat := radians (lat2 - lat1)
  let dlon := radians (lon2 - lon1)
  let a := Real.sin (dlat / 2) ^ 2 +
    Real.cos (radians lat1) * Real.cos (radians lat2) * Real.sin (dlon / 2) ^ 2
  r * 2 * atan2 (Real.sqrt a) (Real.sqrt (1 - a))

/-- Dot product of two numeric vectors (numpy rows of equal length; a
length mismatch is not modelled, the data guarantees equal lengths). -/
def dot (v1 v2 : List ℝ) : ℝ := (List.zipWith (fun a b => a * b) v1 v2).sum

/-- GoAPISimulator.calculate_cosine_similarity delegates to
sklearn.metrics.pairwise.cosine_similarity, which L2-normalizes each row
but substitutes 1 for a zero norm (sklearn preprocessing.normalize sets
norms of 0.0 to 1.0). Hence a zero vector on either side yields 0.0, not
NaN and not an exception. -/
noncomputable def calculate_cosine_similarity (vec1 vec2 : List ℝ) : ℝ :=
  let n1 := Real.sqrt (dot vec1 vec1)
  let n2 := Real.sqrt (dot vec2 vec2)
  dot vec1 vec2 / ((if n1 = 0 then 1 else n1) * (if n2 = 0 then 1 else n2))

/-- pandas Series.min over a list, None on an empty series. -/
def seriesMin {α : Type} [LinearOrder α] : List α → Option α
| [] => none
| x :: xs =>
  some (match seriesMin xs with
        | none => x
        | some m => min x m)

/-- pandas Series.max over a list, None on an empty series. -/
def seriesMax {α : Type} [LinearOrder α] : List α → Option α
| [] => none
| x :: xs =>
  some (match seriesMax xs with
        | none => x
        | some m => max x m)

/-- pandas Series.idxmin on a default RangeIndex: the position of the
first occurrence of the minimum, None (a raised ValueError in pandas) on
an empty series. -/
def idxmin {α : Type} [LinearOrder α] (l : List α) : Option ℕ :=
  (seriesMin l).map (fun m => l.findIdx (fun a => a = m))

/-- pandas Series.idxmax on a default RangeIndex: the position of the
first occurrence of the maximum. -/
def idxmax {α : Type} [LinearOrder α] (l : List α) : Option ℕ :=
  (seriesMax l).map (fun m => l.findIdx (fun a => a = m))

/-- The in-memory snapshot held by GoAPISimulator after initialization.
The embedding model is an abstract text-to-vector function. -/
structure GoAPISimulator where
  stops : List Stop
  embedding_model : String → List ℝ
  stop_time_clean : List StopTime
  delay_logs_clean_df : List DelayLogRow

/-- The service-date and corridor filter of GoAPISimulator.__init__:
service ids inside the configured window, then trips whose service_id
is in that list and whose route_id ends with the corridor string. -/
def validTrips (calendar_dates : List CalendarDate) (trips : List Trip)
    (start_date end_date : ℤ) (corridor : String) : List Trip :=
  let service_ids := (calendar_dates.filter
    (fun c => decide (start_date ≤ c.service_id ∧ c.service_id ≤ end_date))).map
      (fun c => c.service_id)
  trips.filter (fun t =>
    decide (t.service_id ∈ service_ids) && t.route_id.endsWith corridor)

/-- The dt.date accessor on an epoch-seconds timestamp: flooring
division by 86400 gives the epoch day number. -/
def dt_date (t : ℤ) : ℤ := t.fdiv 86400

/-- datetime.date(2018, 3, 1) as an epoch day number. -/
def date_2018_03_01 : ℤ := 17591

/-- datetime.date(2018, 3, 8) as an epoch day number. -/
def date_2018_03_08 : ℤ := 17598

/-- GoAPISimulator.__init__. Loads the GTFS tables and the delay logs
(file reading is outside the model; the parsed tables are arguments),
filters trips by service date window and corridor suffix, restricts
stop_times to the surviving trips, and builds the delay-log snapshot:
merge_data output filtered to the hardcoded 2018-03-01..2018-03-08 date
window, the configured corridor and a non-null DelayCode, sorted
ascending by OperationDateTime (pandas sort_values). There is no
emptiness check anywhere: initialization completes whatever the filters
leave. -/
def GoAPISimulator.init (calendar_dates : List CalendarDate) (trips : List Trip)
    (stop_times : List StopTime) (stops : List Stop)
    (embedding_model : String → List ℝ)
    (l101_df : List L101Row) (l102_df : List L102Row)
    (delay_code_info_df : List DelayCodeInfoRow)
    (start_date end_date : ℤ) (corridor : String) : GoAPISimulator :=
  let valid_trips := validTrips calendar_dates trips start_date end_date corridor
  let stop_time_clean := stop_times.filter
    (fun st => decide (st.trip_id ∈ ((valid_trips.map (fun t => t.trip_id)).dedup)))
  let delay_logs := merge_data l101_df l102_df delay_code_info_df
  let delay_logs_clean := List.insertionSort
    (fun a b => a.OperationDateTime ≤ b.OperationDateTime)
    (delay_logs.filter (fun r =>
      decide (date_2018_03_01 ≤ dt_date r.OperationDateTime ∧
        dt_date r.OperationDateTime ≤ date_2018_03_08 ∧
        r.CorridorId = corridor ∧ r.DelayCode ≠ none)))
  { stops := stops, embedding_model := embedding_model,
    stop_time_clean := stop_time_clean, delay_logs_clean_df := delay_logs_clean }

/-- One row of the get_trip_info working table: a stop_times row
inner-merged with its stops row (only stop_name is read downstream). -/
structure TripRow where
  trip_id : String
  stop_id : String
  stop_sequence : ℤ
  arrival_time : String
  departure_time : String
  stop_headsign : Option String
  stop_name : String
deriving DecidableEq, Repr

/-- pandas inner merge of the filtered stop_times with the stops table
on stop_id: left-row order is preserved, duplicate keys fan out, and
left rows without a stops match are dropped. -/
def mergeStops (rows : List StopTime) (stops : List Stop) : List TripRow :=
  rows.flatMap (fun r =>
    (stops.filter (fun s => s.stop_id == r.stop_id)).map (fun s =>
      { trip_id := r.trip_id, stop_id := r.stop_id,
        stop_sequence := r.stop_sequence, arrival_time := r.arrival_time,
        departure_time := r.departure_time, stop_headsign := r.stop_headsign,
        stop_name := s.stop_name }))

/-- The trip_data frame of get_trip_info: stop_time_clean filtered to
the composite trip key, merged with the stops table. -/
def tripData (sim : GoAPISimulator) (trip_id date corridor : String) :
    List TripRow :=
  mergeStops
    (sim.stop_time_clean.filter
      (fun r => r.trip_id == date ++ "-" ++ corridor ++ "-" ++ trip_id))
    sim.stops

/-- One element of the stop_sequence list in the get_trip_info result. -/
structure SeqEntry where
  stop_sequence : ℤ
  stop_name : String
  arrival_time : String
  departure_time : String
deriving DecidableEq, Repr

/-- The get_trip_info result dictionary. stop_headsign is nullable
because a NaN headsign cell flows through values[0] unchanged. -/
structure TripInfo where
  trip_id : String
  stop_headsign : Option String
  origin : String
  destination : String
  departure_time : String
  arrival_time : String
  stop_sequence : List SeqEntry
deriving DecidableEq, Repr

/-- trip_data.stop_sequence.min() on a nonempty frame; the 0 default is
dead code because get_trip_info only calls this after the emptiness
check. -/
def minSeq (td : List TripRow) : ℤ :=
  match seriesMin (td.map (fun r => r.stop_sequence)) with
  | some m => m
  | none => 0

/-- groupby(stop_sequence).first().iterrows(): group keys are the
distinct stop_sequence values sorted ascending (pandas groupby sorts
keys), and the representative row of each group is its first row in
frame order (pandas first(); per-column first non-null coincides with
the first row here because the consumed columns are non-null). -/
def mkSeqEntries (td : List TripRow) : List SeqEntry :=
  (List.insertionSort (fun a b => a ≤ b)
      ((td.map (fun r => r.stop_sequence)).dedup)).filterMap (fun k =>
    (td.find? (fun r => decide (r.stop_sequence = k))).map (fun r =>
      { stop_sequence := k, stop_name := r.stop_name,
        arrival_time := r.arrival_time, departure_time := r.departure_time }))

/-- GoAPISimulator.get_trip_info. Builds the composite key, filters and
merges, raises ValueError if the result is empty; reads the headsign
from the first row holding the minimal stop_sequence (the IndexError
branch of the source, reachable only if no row attains the minimum, is
the none branch of head?); origin and departure come from iloc[0], the
physically first row, destination and arrival from iloc[-1], the
physically last row; the stop_sequence list comes from the groupby. -/
def GoAPISimulator.get_trip_info (sim : GoAPISimulator) (trip_id : String)
    (date : String) (corridor : String) : Except PyError TripInfo :=
  let full_trip_id := date ++ "-" ++ corridor ++ "-" ++ trip_id
  let trip_data := tripData sim trip_id date corridor
  if h : trip_data = [] then
    .error (.valueError ("Trip ID " ++ full_trip_id ++ " not found."))
  else
    match (trip_data.filter
        (fun r => decide (r.stop_sequence = minSeq trip_data))).head? with
    | none => .error (.valueError ("Missing stop_headsign for trip " ++ trip_id ++ "."))
    | some rMin =>
      .ok { trip_id := full_trip_id
            stop_headsign := rMin.stop_headsign
            origin := (trip_data.head h).stop_name
            destination := (trip_data.getLast h).stop_name
            departure_time := (trip_data.head h).departure_time
            arrival_time := (trip_data.getLast h).arrival_time
            stop_sequence := mkSeqEntries trip_data }

/-- GoAPISimulator.get_stop_id. Dispatches on the method string: None
does an exact-name lookup taking the first match (values[0], with the
IndexError caught and re-raised as ValueError); embedding_search encodes
the name and takes idxmax of the cosine similarities; geo_search takes
idxmin of the Haversine distances; any other method string falls
through every branch and returns Python None, modelled as ok none. An
empty stops table makes idxmax and idxmin raise the pandas ValueError
for an empty sequence, which the except IndexError clause does not
catch. -/
noncomputable def GoAPISimulator.get_stop_id (sim : GoAPISimulator)
    (stop_name : Option String) (lat : Option ℝ) (long : Option ℝ)
    (method : Option String) : Except PyError (Option String) :=
  match method with
  | none =>
    match (sim.stops.filter (fun st => some st.stop_name == stop_name)).head? with
    | some st => .ok (some st.stop_id)
    | none => .error (.valueError "Stop not found using method: None")
  | some m =>
    if m = "embedding_search" then
      match stop_name with
      | none => .error (.valueError "stop_name is required for embedding search")
      | some nm =>
        let input_emb := sim.embedding_model nm
        let sim_scores := sim.stops.map
          (fun st => calculate_cosine_similarity input_emb st.embedding)
        match idxmax sim_scores with
        | none => .error (.valueError "attempt to get argmax of an empty sequence")
        | some i =>
          match sim.stops[i]? with
          | some st => .ok (some st.stop_id)
          | none => .error (.valueError "Stop not found using method: embedding_search")
    else if m = "geo_search" then
      match lat, long with
      | some la, some lo =>
        let dist_scores := sim.stops.map
          (fun st => calculate_distance la lo st.stop_lat st.stop_lon)
        match idxmin dist_scores with
        | none => .error (.valueError "attempt to get argmin of an empty sequence")
        | some i =>
          match sim.stops[i]? with
          | some st => .ok (some st.stop_id)
          | none => .error (.valueError "Stop not found using method: geo_search")
      | _, _ => .error (.valueError "Both lat and long are required for geo search")
    else
      .ok none

/-- The get_next_available_trip result dictionary. -/
structure NextTrip where
  trip_id : String
  origin : String
  destination : String
  departure_time : String
  arrival_time : String
deriving DecidableEq, Repr

/-- GoAPISimulator.get_next_available_trip: a hardcoded dummy record,
ignoring both arguments and the loaded snapshot. -/
def GoAPISimulator.get_next_available_trip (sim : GoAPISimulator)
    (o_stop_id : String) (d_stop_id : String) (time : Option String) : NextTrip :=
  { trip_id := "907", origin := "Oshawa GO", destination := "Union Station",
    departure_time := "07:42:00", arrival_time := "08:45:00" }

-- ===== Concrete fixtures used by witnesses and counterexamples =====

/-- A one-row stop table fixture. -/
noncomputable def stopA : Stop :=
  { stop_id := "S1", stop_name := "StopA", stop_lat := 0, stop_lon := 0,
    embedding := [1] }

/-- A simulator snapshot holding exactly one stop. -/
noncomputable def sim1 : GoAPISimulator :=
  { stops := [stopA], embedding_model := fun _ => [1],
    stop_time_clean := [], delay_logs_clean_df := [] }

/-- A two-row stop table fixture. -/
noncomputable def stopTableC3 : List Stop :=
  [{ stop_id := "S1", stop_name := "StopA", stop_lat := 0, stop_lon := 0,
     embedding := [] },
   { stop_id := "S2", stop_name := "StopB", stop_lat := 0, stop_lon := 0,
     embedding := [] }]

/-- Stop-times row of trip 20180301-LE-907 with sequence 1 (StopA). -/
def stSeq1 : StopTime :=
  { trip_id := "20180301-LE-907", stop_id := "S1", stop_sequence := 1,
    arrival_time := "07:40:00", departure_time := "07:42:00",
    stop_headsign := some "Union" }

/-- Stop-times row of trip 20180301-LE-907 with sequence 2 (StopB). -/
def stSeq2 : StopTime :=
  { trip_id := "20180301-LE-907", stop_id := "S2", stop_sequence := 2,
    arrival_time := "08:45:00", departure_time := "08:46:00",
    stop_headsign := some "Union" }

/-- A snapshot whose stop-times rows for trip 907 are physically stored
with sequence 2 before sequence 1. -/
noncomputable def simC3 : GoAPISimulator :=
  { stops := stopTableC3, embedding_model := fun _ => [],
    stop_time_clean := [stSeq2, stSeq1], delay_logs_clean_df := [] }

/-- The same snapshot with the rows physically stored in ascending
stop_sequence order. -/
noncomputable def simC3s : GoAPISimulator :=
  { stops := stopTableC3, embedding_model := fun _ => [],
    stop_time_clean := [stSeq1, stSeq2], delay_logs_clean_df := [] }

/-- Stop-times row of trip 20180301-LE-903 with sequence 1 and a null
stop_headsign cell. -/
def stNullHeadsign : StopTime :=
  { trip_id := "20180301-LE-903", stop_id := "S1", stop_sequence := 1,
    arrival_time := "07:40:00", departure_time := "07:42:00",
    stop_headsign := none }

/-- Stop-times row of trip 20180301-LE-903 with sequence 2 and a
headsign. -/
def stSeq2h : StopTime :=
  { trip_id := "20180301-LE-903", stop_id := "S2", stop_sequence := 2,
    arrival_time := "08:45:00", departure_time := "08:46:00",
    stop_headsign := some "Union" }

/-- A snapshot whose trip 903 has a null headsign on its
minimum-sequence row. -/
noncomputable def simC8 : GoAPISimulator :=
  { stops := stopTableC3, embedding_model := fun _ => [],
    stop_time_clean := [stNullHeadsign, stSeq2h], delay_logs_clean_df := [] }

/-- An initialization whose corridor and date filter leaves zero trips:
the trips table is empty while a stop-times row exists. -/
noncomputable def simC4 : GoAPISimulator :=
  GoAPISimulator.init [{ service_id := 20180301 }] [] [stSeq1] stopTableC3
    (fun _ => []) [] [] [] 20180301 20180308 "LE"

/-- A delay-log row stamped 2018-03-05 (epoch day 17595), corridor LE,
delay code 10. -/
def l101March5 : L101Row :=
  { TripId := "T1", OperationDateTime := 17595 * 86400, CorridorId := "LE",
    DelayCode := some 10 }

/-- The delay-code reference row for code 10. -/
def dciRow10 : DelayCodeInfoRow := { DelayCode := 10, Description := "Mechanical" }

/-- An initialization configured with the April window 20180401..20180402
(different from the hardcoded 2018-03-01..2018-03-08 delay window). -/
noncomputable def simC5april : GoAPISimulator :=
  GoAPISimulator.init [] [] [] [] (fun _ => []) [l101March5] [] [dciRow10]
    20180401 20180402 "LE"

/-- The merged delay row that the April-configured initialization
retains even though its timestamp is 2018-03-05. -/
def delayRowMarch5 : DelayLogRow :=
  { TripId := "T1", OperationDateTime := 17595 * 86400, CorridorId := "LE",
    DelayCode := some 10, Equipment := none, Description := some "Mechanical" }

-- ===== Generic lemmas about the pandas min/max and idxmin/idxmax model =====

theorem seriesMin_mem {α : Type} [LinearOrder α] {l : List α} :
    ∀ {m : α}, seriesMin l = some m → m ∈ l := by
  induction l with
  | nil => intro m h; simp [seriesMin] at h
  | cons x xs ih =>
    intro m h
    rw [seriesMin] at h
    cases hx : seriesMin xs with
    | none =>
      rw [hx] at h
      simp only [Option.some.injEq] at h
      subst h
      simp
    | some m0 =>
      rw [hx] at h
      simp only [Option.some.injEq] at h
      subst h
      rcases min_choice x m0 with hc | hc
      · rw [hc]; simp
      · rw [hc]; exact List.mem_cons_of_mem _ (ih hx)

theorem seriesMin_le {α : Type} [LinearOrder α] {l : List α} :
    ∀ {m : α}, seriesMin l = some m → ∀ a ∈ l, m ≤ a := by
  induction l with
  | nil => intro m h; simp [seriesMin] at h
  | cons x xs ih =>
    intro m h
    rw [seriesMin] at h
    cases hx : seriesMin xs with
    | none =>
      rw [hx] at h
      simp only [Option.some.injEq] at h
      subst h
      have hxs : xs = [] := by
        cases xs with
        | nil => rfl
        | cons y ys => rw [seriesMin] at hx; simp at hx
      subst hxs
      intro a ha
      simp only [List.mem_singleton] at ha
      subst ha
      exact le_refl _
    | some m0 =>
      rw [hx] at h
      simp only [Option.some.injEq] at h
      subst h
      intro a ha
      rcases List.mem_cons.mp ha with rfl | ha
      · exact min_le_left _ _
      · exact le_trans (min_le_right x m0) (ih hx a ha)

theorem seriesMax_mem {α : Type} [LinearOrder α] {l : List α} :
    ∀ {m : α}, seriesMax l = some m → m ∈ l := by
  induction l with
  | nil => intro m h; simp [seriesMax] at h
  | cons x xs ih =>
    intro m h
    rw [seriesMax] at h
    cases hx : seriesMax xs with
    | none =>
      rw [hx] at h
      simp only [Option.some.injEq] at h
      subst h
      simp
    | some m0 =>
      rw [hx] at h
      simp only [Option.some.injEq] at h
      subst h
      rcases max_choice x m0 with hc | hc
      · rw [hc]; simp
      · rw [hc]; exact List.mem_cons_of_mem _ (ih hx)

theorem seriesMax_ge {α : Type} [LinearOrder α] {l : List α} :
    ∀ {m : α}, seriesMax l = some m → ∀ a ∈ l, a ≤ m := by
  induction l with
  | nil => intro m h; simp [seriesMax] at h
  | cons x xs ih =>
    intro m h
    rw [seriesMax] at h
    cases hx : seriesMax xs with
    | none =>
      rw [hx] at h
      simp only [Option.some.injEq] at h
      subst h
      have hxs : xs = [] := by
        cases xs with
        | nil => rfl
        | cons y ys => rw [seriesMax] at hx; simp at hx
      subst hxs
      intro a ha
      simp only [List.mem_singleton] at ha
      subst ha
      exact le_refl _
    | some m0 =>
      rw [hx] at h
      simp only [Option.some.injEq] at h
      subst h
      intro a ha
      rcases List.mem_cons.mp ha with rfl | ha
      · exact le_max_left _ _
      · exact le_trans (ih hx a ha) (le_max_right x m0)

theorem seriesMin_isSome {α : Type} [LinearOrder α] {l : List α} (h : l ≠ []) :
    ∃ m, seriesMin l = some m := by
  cases l with
  | nil => exact absurd rfl h
  | cons x xs => exact ⟨_, rfl⟩

theorem seriesMax_isSome {α : Type} [LinearOrder α] {l : List α} (h : l ≠ []) :
    ∃ m, seriesMax l = some m := by
  cases l with
  | nil => exact absurd rfl h
  | cons x xs => exact ⟨_, rfl⟩

/-- The first-minimal-index specification of the pandas idxmin model: on
a nonempty series it returns an in-range position whose value is a lower
bound of the whole series and is strictly below every value at an
earlier position. -/
theorem idxmin_spec {α : Type} [LinearOrder α] {l : List α} (hne : l ≠ []) :
    ∃ i, ∃ hi : i < l.length, idxmin l = some i ∧
      (∀ j (hj : j < l.length), l.get ⟨i, hi⟩ ≤ l.get ⟨j, hj⟩) ∧
      (∀ j (hj : j < i), l.get ⟨i, hi⟩ < l.get ⟨j, Nat.lt_trans hj hi⟩) := by
  obtain ⟨m, hm⟩ := seriesMin_isSome hne
  have hmem : m ∈ l := seriesMin_mem hm
  have hle := seriesMin_le hm
  have hex : ∃ x ∈ l, (fun a => decide (a = m)) x = true := ⟨m, hmem, by simp⟩
  have hilt : l.findIdx (fun a => decide (a = m)) < l.length :=
    List.findIdx_lt_length_of_exists hex
  have hget : l.get ⟨l.findIdx (fun a => decide (a = m)), hilt⟩ = m := by
    have := @List.findIdx_get _ (fun a => decide (a = m)) l hilt
    simpa using this
  refine ⟨l.findIdx (fun a => decide (a = m)), hilt, ?_, ?_, ?_⟩
  · simp [idxmin, hm]
  · intro j hj
    rw [hget]
    exact hle _ (l.get_mem _ _)
  · intro j hj
    rw [hget]
    have hne2 : ¬ (l.get ⟨j, Nat.lt_trans hj hilt⟩ = m) := by
      have := List.not_of_lt_findIdx hj
      simpa using this
    exact lt_of_le_of_ne (hle _ (l.get_mem _ _)) (fun he => hne2 he.symm)

/-- The first-maximal-index specification of the pandas idxmax model. -/
theorem idxmax_spec {α : Type} [LinearOrder α] {l : List α} (hne : l ≠ []) :
    ∃ i, ∃ hi : i < l.length, idxmax l = some i ∧
      (∀ j (hj : j < l.length), l.get ⟨j, hj⟩ ≤ l.get ⟨i, hi⟩) ∧
      (∀ j (hj : j < i), l.get ⟨j, Nat.lt_trans hj hi⟩ < l.get ⟨i, hi⟩) := by
  obtain ⟨m, hm⟩ := seriesMax_isSome hne
  have hmem : m ∈ l := seriesMax_mem hm
  have hge := seriesMax_ge hm
  have hex : ∃ x ∈ l, (fun a => decide (a = m)) x = true := ⟨m, hmem, by simp⟩
  have hilt : l.findIdx (fun a => decide (a = m)) < l.length :=
    List.findIdx_lt_length_of_exists hex
  have hget : l.get ⟨l.findIdx (fun a => decide (a = m)), hilt⟩ = m := by
    have := @List.findIdx_get _ (fun a => decide (a = m)) l hilt
    simpa using this
  refine ⟨l.findIdx (fun a => decide (a = m)), hilt, ?_, ?_, ?_⟩
  · simp [idxmax, hm]
  · intro j hj
    rw [hget]
    exact hge _ (l.get_mem _ _)
  · intro j hj
    rw [hget]
    have hne2 : ¬ (l.get ⟨j, Nat.lt_trans hj hilt⟩ = m) := by
      have := List.not_of_lt_findIdx hj
      simpa using this
    exact lt_of_le_of_ne (hge _ (l.get_mem _ _)) hne2

/-- idxmin through a map: the selected position is a position of the
underlying list, minimal for the score function with first-minimal tie
break. -/
theorem idxmin_map_spec {α β : Type} [LinearOrder β] (f : α → β) {l : List α}
    (hne : l ≠ []) :
    ∃ i, ∃ hi : i < l.length, idxmin (l.map f) = some i ∧
      (∀ j (hj : j < l.length), f (l.get ⟨i, hi⟩) ≤ f (l.get ⟨j, hj⟩)) ∧
      (∀ j (hj : j < i), f (l.get ⟨i, hi⟩) < f (l.get ⟨j, Nat.lt_trans hj hi⟩)) := by
  have hne2 : l.map f ≠ [] := by simpa using hne
  obtain ⟨i, hi, hidx, hmin, hfirst⟩ := idxmin_spec hne2
  rw [List.length_map] at hi
  refine ⟨i, hi, hidx, ?_, ?_⟩
  · intro j hj
    have := hmin j (by simpa using hj)
    simpa [List.get_map] using this
  · intro j hj
    have := hfirst j hj
    simpa [List.get_map] using this

/-- idxmax through a map. -/
theorem idxmax_map_spec {α β : Type} [LinearOrder β] (f : α → β) {l : List α}
    (hne : l ≠ []) :
    ∃ i, ∃ hi : i < l.length, idxmax (l.map f) = some i ∧
      (∀ j (hj : j < l.length), f (l.get ⟨j, hj⟩) ≤ f (l.get ⟨i, hi⟩)) ∧
      (∀ j (hj : j < i), f (l.get ⟨j, Nat.lt_trans hj hi⟩) < f (l.get ⟨i, hi⟩)) := by
  have hne2 : l.map f ≠ [] := by simpa using hne
  obtain ⟨i, hi, hidx, hmax, hfirst⟩ := idxmax_spec hne2
  rw [List.length_map] at hi
  refine ⟨i, hi, hidx, ?_, ?_⟩
  · intro j hj
    have := hmax j (by simpa using hj)
    simpa [List.get_map] using this
  · intro j hj
    have := hfirst j hj
    simpa [List.get_map] using this

/-- idxmin only returns in-range positions. -/
theorem idxmin_lt_length {α : Type} [LinearOrder α] {l : List α} {i : ℕ}
    (h : idxmin l = some i) : i < l.length := by
  have hne : l ≠ [] := by
    intro he
    subst he
    simp [idxmin, seriesMin] at h
  obtain ⟨j, hj, hidx, _, _⟩ := idxmin_spec hne
  rw [hidx] at h
  exact Option.some_injective _ h ▸ hj

/-- idxmax only returns in-range positions. -/
theorem idxmax_lt_length {α : Type} [LinearOrder α] {l : List α} {i : ℕ}
    (h : idxmax l = some i) : i < l.length := by
  have hne : l ≠ [] := by
    intro he
    subst he
    simp [idxmax, seriesMax] at h
  obtain ⟨j, hj, hidx, _, _⟩ := idxmax_spec hne
  rw [hidx] at h
  exact Option.some_injective _ h ▸ hj

-- ===== Shared facts about dot products =====

theorem dot_zero_left (v1 : List ℝ) :
    ∀ w, (∀ x ∈ v1, x = 0) → dot v1 w = 0 := by
  induction v1 with
  | nil => intro w h; simp [dot]
  | cons a v ih =>
    intro w h
    cases w with
    | nil => simp [dot]
    | cons b w2 =>
      have ha : a = 0 := h a (by simp)
      have hv := ih w2 (fun x hx => h x (List.mem_cons_of_mem _ hx))
      simp only [dot, List.zipWith_cons_cons, List.sum_cons, ha, zero_mul, zero_add]
      simpa [dot] using hv

theorem dot_comm (v : List ℝ) : ∀ w, dot v w = dot w v := by
  induction v with
  | nil => intro w; cases w <;> simp [dot]
  | cons a v ih =>
    intro w
    cases w with
    | nil => simp [dot]
    | cons b w2 =>
      simp only [dot, List.zipWith_cons_cons, List.sum_cons]
      have := ih w2
      simp only [dot] at this
      rw [mul_comm, this]

-- ===== Branch reduction equations for get_stop_id =====

theorem get_stop_id_none_eq (sim : GoAPISimulator) (stop_name : Option String)
    (lat long : Option ℝ) :
    sim.get_stop_id stop_name lat long none =
      match (sim.stops.filter (fun st => some st.stop_name == stop_name)).head? with
      | some st => .ok (some st.stop_id)
      | none => .error (.valueError "Stop not found using method: None") := rfl

theorem get_stop_id_embedding_eq (sim : GoAPISimulator) (nm : String)
    (lat long : Option ℝ) :
    sim.get_stop_id (some nm) lat long (some "embedding_search") =
      match idxmax (sim.stops.map
          (fun st => calculate_cosine_similarity (sim.embedding_model nm) st.embedding)) with
      | none => .error (.valueError "attempt to get argmax of an empty sequence")
      | some i =>
        match sim.stops[i]? with
        | some st => .ok (some st.stop_id)
        | none => .error (.valueError "Stop not found using method: embedding_search") := rfl

theorem get_stop_id_embedding_no_name_eq (sim : GoAPISimulator)
    (lat long : Option ℝ) :
    sim.get_stop_id none lat long (some "embedding_search") =
      .error (.valueError "stop_name is required for embedding search") := rfl

theorem get_stop_id_geo_eq (sim : GoAPISimulator) (stop_name : Option String)
    (la lo : ℝ) :
    sim.get_stop_id stop_name (some la) (some lo) (some "geo_search") =
      match idxmin (sim.stops.map
          (fun st => calculate_distance la lo st.stop_lat st.stop_lon)) with
      | none => .error (.valueError "attempt to get argmin of an empty sequence")
      | some i =>
        match sim.stops[i]? with
        | some st => .ok (some st.stop_id)
        | none => .error (.valueError "Stop not found using method: geo_search") := rfl

theorem get_stop_id_geo_missing_eq (sim : GoAPISimulator)
    (stop_name : Option String) (lat long : Option ℝ)
    (h : lat = none ∨ long = none) :
    sim.get_stop_id stop_name lat long (some "geo_search") =
      .error (.valueError "Both lat and long are required for geo search") := by
  rcases h with rfl | rfl
  · cases long <;> rfl
  · cases lat <;> rfl

-- ===== Claim theorems =====

/-- C1: on a nonempty stop table, get_stop_id with method geo_search
returns the stop id at the first position of minimal Haversine distance
(calculate_distance, Earth radius 6371 km) to the query point: the
distance of the returned stop is a lower bound over the whole table,
and is strictly below the distance of every earlier position (first
minimal position wins ties). -/
theorem geo_search_returns_nearest_stop (sim : GoAPISimulator) (lat long : ℝ)
    (hne : sim.stops ≠ []) :
    ∃ i, ∃ hi : i < sim.stops.length,
      sim.get_stop_id none (some lat) (some long) (some "geo_search") =
        .ok (some ((sim.stops.get ⟨i, hi⟩).stop_id)) ∧
      (∀ j (hj : j < sim.stops.length),
        calculate_distance lat long (sim.stops.get ⟨i, hi⟩).stop_lat
            (sim.stops.get ⟨i, hi⟩).stop_lon ≤
          calculate_distance lat long (sim.stops.get ⟨j, hj⟩).stop_lat
            (sim.stops.get ⟨j, hj⟩).stop_lon) ∧
      (∀ j (hj : j < i),
        calculate_distance lat long (sim.stops.get ⟨i, hi⟩).stop_lat
            (sim.stops.get ⟨i, hi⟩).stop_lon <
          calculate_distance lat long (sim.stops.get ⟨j, Nat.lt_trans hj hi⟩).stop_lat
            (sim.stops.get ⟨j, Nat.lt_trans hj hi⟩).stop_lon) := by
  obtain ⟨i, hi, hidx, hmin, hfirst⟩ :=
    idxmin_map_spec (fun st => calculate_distance lat long st.stop_lat st.stop_lon) hne
  refine ⟨i, hi, ?_, hmin, hfirst⟩
  rw [get_stop_id_geo_eq, hidx]
  simp [List.getElem?_eq_getElem hi, List.get_eq_getElem]

/-- Witness for C1 at a concrete one-stop table and query point. -/
theorem geo_search_returns_nearest_stop_witness :
    sim1.stops ≠ [] ∧
    ∃ i, ∃ hi : i < sim1.stops.length,
      sim1.get_stop_id none (some 0) (some 0) (some "geo_search") =
        .ok (some ((sim1.stops.get ⟨i, hi⟩).stop_id)) :=
  ⟨by simp [sim1], by
    obtain ⟨i, hi, h1, _, _⟩ :=
      geo_search_returns_nearest_stop sim1 0 0 (by simp [sim1])
    exact ⟨i, hi, h1⟩⟩

/-- C2: get_stop_id with method embedding_search and a stop name to
encode fails exactly on the empty stop table (with the ValueError that
pandas idxmax raises on an empty sequence); on a nonempty table it
returns the stop id at the first position of maximal cosine similarity
between the encoded query and the stored embeddings. -/
theorem embedding_search_returns_most_similar_stop (sim : GoAPISimulator)
    (nm : String) :
    (sim.stops = [] →
      sim.get_stop_id (some nm) none none (some "embedding_search") =
        .error (.valueError "attempt to get argmax of an empty sequence")) ∧
    (sim.stops ≠ [] →
      ∃ i, ∃ hi : i < sim.stops.length,
        sim.get_stop_id (some nm) none none (some "embedding_search") =
          .ok (some ((sim.stops.get ⟨i, hi⟩).stop_id)) ∧
        (∀ j (hj : j < sim.stops.length),
          calculate_cosine_similarity (sim.embedding_model nm)
              (sim.stops.get ⟨j, hj⟩).embedding ≤
            calculate_cosine_similarity (sim.embedding_model nm)
              (sim.stops.get ⟨i, hi⟩).embedding) ∧
        (∀ j (hj : j < i),
          calculate_cosine_similarity (sim.embedding_model nm)
              (sim.stops.get ⟨j, Nat.lt_trans hj hi⟩).embedding <
            calculate_cosine_similarity (sim.embedding_model nm)
              (sim.stops.get ⟨i, hi⟩).embedding)) := by
  constructor
  · intro h
    rw [get_stop_id_embedding_eq, h]
    simp [idxmax, seriesMax]
  · intro hne
    obtain ⟨i, hi, hidx, hmax, hfirst⟩ :=
      idxmax_map_spec
        (fun st => calculate_cosine_similarity (sim.embedding_model nm) st.embedding)
        hne
    refine ⟨i, hi, ?_, hmax, hfirst⟩
    rw [get_stop_id_embedding_eq, hidx]
    simp [List.getElem?_eq_getElem hi, List.get_eq_getElem]

/-- Witness for C2 at a concrete one-stop table. -/
theorem embedding_search_returns_most_similar_stop_witness :
    sim1.stops ≠ [] ∧
    ∃ i, ∃ hi : i < sim1.stops.length,
      sim1.get_stop_id (some "Union") none none (some "embedding_search") =
        .ok (some ((sim1.stops.get ⟨i, hi⟩).stop_id)) :=
  ⟨by simp [sim1], by
    obtain ⟨i, hi, h1, _, _⟩ :=
      (embedding_search_returns_most_similar_stop sim1 "Union").2 (by simp [sim1])
    exact ⟨i, hi, h1⟩⟩

/-- C7 counterexample: on the zero vector the cosine-similarity
computation does not fail; it silently returns the numeric value 0
(sklearn substitutes 1 for a zero norm), contradicting the claim that a
zero-vector input must fail with an explicit error. -/
theorem cosine_similarity_zero_vector_cex :
    calculate_cosine_similarity [(0 : ℝ)] [1] = 0 := by
  simp [calculate_cosine_similarity, dot]

/-- C7 amended: for a zero vector on either side, the sklearn-backed
cosine similarity used by EmbeddingSearch is total and returns exactly
0; it never produces NaN and never raises. -/
theorem cosine_similarity_zero_vector_returns_zero (v1 v2 : List ℝ)
    (h : ∀ x ∈ v1, x = 0) :
    calculate_cosine_similarity v1 v2 = 0 ∧
    calculate_cosine_similarity v2 v1 = 0 := by
  have h12 : dot v1 v2 = 0 := dot_zero_left v1 v2 h
  have h21 : dot v2 v1 = 0 := by rw [dot_comm]; exact h12
  constructor
  · simp only [calculate_cosine_similarity, h12, zero_div]
  · simp only [calculate_cosine_similarity, h21, zero_div]

/-- Witness for the amended C7 at the concrete zero vector. -/
theorem cosine_similarity_zero_vector_returns_zero_witness :
    (∀ x ∈ ([0] : List ℝ), x = 0) ∧
    calculate_cosine_similarity [(0 : ℝ)] [5] = 0 ∧
    calculate_cosine_similarity [(5 : ℝ)] [0] = 0 := by
  have h : ∀ x ∈ ([0] : List ℝ), x = 0 := by simp
  have := cosine_similarity_zero_vector_returns_zero [0] [5] h
  exact ⟨h, this.1, this.2⟩

/-- C10: get_next_available_trip returns the same hardcoded record for
all origin and destination stops, all time arguments and all loaded
snapshots. -/
theorem get_next_available_trip_constant (sim sim2 : GoAPISimulator)
    (o d o2 d2 : String) (t t2 : Option String) :
    sim.get_next_available_trip o d t =
      { trip_id := "907", origin := "Oshawa GO", destination := "Union Station",
        departure_time := "07:42:00", arrival_time := "08:45:00" } ∧
    sim.get_next_available_trip o d t = sim2.get_next_available_trip o2 d2 t2 :=
  ⟨rfl, rfl⟩

/-- C6 counterexample: an unrecognized method string falls through every
branch of get_stop_id, which then returns the Python null (ok none)
rather than a stop identifier or an error, even on a nonempty stop
table. -/
theorem get_stop_id_unknown_method_cex :
    sim1.get_stop_id none none none (some "fuzzy") = .ok none ∧
    sim1.stops ≠ [] := by
  constructor
  · simp [GoAPISimulator.get_stop_id]
  · simp [sim1]

/-- C6 amended: for the three documented method values (None,
embedding_search, geo_search) get_stop_id either returns a stop
identifier present in the stop table or raises a typed error; the null
fall-through happens only for unrecognized method strings. -/
theorem get_stop_id_returns_table_id_or_error (sim : GoAPISimulator)
    (stop_name : Option String) (lat long : Option ℝ) (method : Option String)
    (hm : method = none ∨ method = some "embedding_search" ∨
      method = some "geo_search") :
    (∃ id, sim.get_stop_id stop_name lat long method = .ok (some id) ∧
      id ∈ sim.stops.map Stop.stop_id) ∨
    (∃ e, sim.get_stop_id stop_name lat long method = .error e) := by
  rcases hm with rfl | rfl | rfl
  · rw [get_stop_id_none_eq]
    cases hh : (sim.stops.filter (fun st => some st.stop_name == stop_name)).head? with
    | none => exact Or.inr ⟨_, rfl⟩
    | some st =>
      refine Or.inl ⟨st.stop_id, rfl, ?_⟩
      have hmem : st ∈ sim.stops.filter (fun st => some st.stop_name == stop_name) :=
        List.mem_of_mem_head? (hh ▸ Option.mem_def.mpr rfl)
      exact List.mem_map.mpr ⟨st, (List.mem_filter.mp hmem).1, rfl⟩
  · cases stop_name with
    | none => exact Or.inr ⟨_, get_stop_id_embedding_no_name_eq sim lat long⟩
    | some nm =>
      rw [get_stop_id_embedding_eq]
      cases hidx : idxmax (sim.stops.map
          (fun st => calculate_cosine_similarity (sim.embedding_model nm) st.embedding)) with
      | none => exact Or.inr ⟨_, rfl⟩
      | some i =>
        have hi : i < sim.stops.length := by
          have := idxmax_lt_length hidx
          simpa using this
        simp only [List.getElem?_eq_getElem hi]
        exact Or.inl ⟨_, rfl, List.mem_map.mpr ⟨_, List.getElem_mem hi, rfl⟩⟩
  · rcases lat with _ | la
    · exact Or.inr ⟨_, get_stop_id_geo_missing_eq sim stop_name none long (Or.inl rfl)⟩
    · rcases long with _ | lo
      · exact Or.inr ⟨_, get_stop_id_geo_missing_eq sim stop_name (some la) none (Or.inr rfl)⟩
      · rw [get_stop_id_geo_eq]
        cases hidx : idxmin (sim.stops.map
            (fun st => calculate_distance la lo st.stop_lat st.stop_lon)) with
        | none => exact Or.inr ⟨_, rfl⟩
        | some i =>
          have hi : i < sim.stops.length := by
            have := idxmin_lt_length hidx
            simpa using this
          simp only [List.getElem?_eq_getElem hi]
          exact Or.inl ⟨_, rfl, List.mem_map.mpr ⟨_, List.getElem_mem hi, rfl⟩⟩

/-- Witness for the amended C6 at a concrete table and method. -/
theorem get_stop_id_returns_table_id_or_error_witness :
    ((some "geo_search" : Option String) = none ∨
      (some "geo_search" : Option String) = some "embedding_search" ∨
      (some "geo_search" : Option String) = some "geo_search") ∧
    ((∃ id, sim1.get_stop_id none (some 0) (some 0) (some "geo_search") =
        .ok (some id) ∧ id ∈ sim1.stops.map Stop.stop_id) ∨
     (∃ e, sim1.get_stop_id none (some 0) (some 0) (some "geo_search") =
        .error e)) :=
  ⟨Or.inr (Or.inr rfl),
    get_stop_id_returns_table_id_or_error sim1 none (some 0) (some 0)
      (some "geo_search") (Or.inr (Or.inr rfl))⟩

-- ===== Helper lemmas for the trip assembler =====

theorem minSeq_filter_head_isSome {td : List TripRow} (hne : td ≠ []) :
    ∃ rMin, (td.filter
      (fun r => decide (r.stop_sequence = minSeq td))).head? = some rMin := by
  have hmapne : td.map (fun r => r.stop_sequence) ≠ [] := by simpa using hne
  obtain ⟨m, hm⟩ := seriesMin_isSome hmapne
  have hmem : m ∈ td.map (fun r => r.stop_sequence) := seriesMin_mem hm
  obtain ⟨r, hr, hseq⟩ := List.mem_map.mp hmem
  have hmin : minSeq td = m := by simp [minSeq, hm]
  have hfil : td.filter (fun r => decide (r.stop_sequence = minSeq td)) ≠ [] := by
    intro hnil
    have := List.filter_eq_nil_iff.mp hnil r hr
    simp [hmin, hseq] at this
  exact ⟨_, List.head?_eq_head hfil⟩

/-- On a nonempty trip_data frame, get_trip_info succeeds and returns
the record built from the physically first and last rows, the first
minimal-sequence row headsign and the groupby entries. -/
theorem get_trip_info_ok (sim : GoAPISimulator) (trip_id date corridor : String)
    (hne : tripData sim trip_id date corridor ≠ []) :
    ∃ rMin, ((tripData sim trip_id date corridor).filter
        (fun r => decide (r.stop_sequence =
          minSeq (tripData sim trip_id date corridor)))).head? = some rMin ∧
      sim.get_trip_info trip_id date corridor = .ok
        { trip_id := date ++ "-" ++ corridor ++ "-" ++ trip_id
          stop_headsign := rMin.stop_headsign
          origin := ((tripData sim trip_id date corridor).head hne).stop_name
          destination := ((tripData sim trip_id date corridor).getLast hne).stop_name
          departure_time := ((tripData sim trip_id date corridor).head hne).departure_time
          arrival_time := ((tripData sim trip_id date corridor).getLast hne).arrival_time
          stop_sequence := mkSeqEntries (tripData sim trip_id date corridor) } := by
  obtain ⟨rMin, hr⟩ := minSeq_filter_head_isSome hne
  refine ⟨rMin, hr, ?_⟩
  simp only [GoAPISimulator.get_trip_info]
  rw [dif_neg hne]
  rw [hr]

theorem sorted_head_minimal {l : List TripRow}
    (hs : List.Sorted (fun a b => a.stop_sequence ≤ b.stop_sequence) l)
    (hne : l ≠ []) :
    ∀ r ∈ l, (l.head hne).stop_sequence ≤ r.stop_sequence := by
  cases l with
  | nil => exact absurd rfl hne
  | cons a t =>
    intro r hr
    rw [List.head_cons]
    rcases List.mem_cons.mp hr with rfl | hr
    · exact le_refl _
    · exact (List.sorted_cons.mp hs).1 r hr

theorem sorted_getLast_maximal {l : List TripRow} :
    List.Sorted (fun a b => a.stop_sequence ≤ b.stop_sequence) l →
    ∀ hne : l ≠ [], ∀ r ∈ l,
      r.stop_sequence ≤ (l.getLast hne).stop_sequence := by
  induction l with
  | nil => intro _ hne; exact absurd rfl hne
  | cons a t ih =>
    intro hs hne r hr
    cases t with
    | nil =>
      rcases List.mem_cons.mp hr with rfl | hr
      · exact le_refl _
      · simp at hr
    | cons b t2 =>
      have htne : (b :: t2) ≠ [] := List.cons_ne_nil _ _
      rw [List.getLast_cons htne]
      rcases List.mem_cons.mp hr with rfl | hr
      · exact (List.sorted_cons.mp hs).1 _ (List.getLast_mem htne)
      · exact ih (List.sorted_cons.mp hs).2 htne r hr

theorem mkSeqEntries_keys (td : List TripRow) :
    ∀ ks : List ℤ, (∀ k ∈ ks, ∃ r ∈ td, r.stop_sequence = k) →
      (ks.filterMap (fun k =>
        (td.find? (fun r => decide (r.stop_sequence = k))).map
          (fun r => ({ stop_sequence := k, stop_name := r.stop_name,
                       arrival_time := r.arrival_time,
                       departure_time := r.departure_time } : SeqEntry)))).map
        (fun e => e.stop_sequence) = ks := by
  intro ks
  induction ks with
  | nil => intro _; rfl
  | cons k ks ih =>
    intro h
    obtain ⟨r, hr, hseq⟩ := h k (by simp)
    have hfind : (td.find? (fun r => decide (r.stop_sequence = k))).isSome := by
      rw [List.find?_isSome]
      exact ⟨r, hr, by simp [hseq]⟩
    obtain ⟨r0, hr0⟩ := Option.isSome_iff_exists.mp hfind
    simp only [List.filterMap_cons, hr0, Option.map_some', List.map_cons]
    exact congrArg (fun t => k :: t)
      (ih (fun k2 hk2 => h k2 (List.mem_cons_of_mem _ hk2)))

theorem mkSeqEntries_map_seq (td : List TripRow) :
    (mkSeqEntries td).map (fun e => e.stop_sequence) =
      List.insertionSort (fun a b => a ≤ b)
        ((td.map (fun r => r.stop_sequence)).dedup) := by
  unfold mkSeqEntries
  apply mkSeqEntries_keys
  intro k hk
  have hmem : k ∈ td.map (fun r => r.stop_sequence) := by
    have hperm := List.perm_insertionSort (fun a b => a ≤ b)
      ((td.map (fun r => r.stop_sequence)).dedup)
    have := hperm.mem_iff.mp hk
    simpa [List.mem_dedup] using this
  obtain ⟨r, hr, hseq⟩ := List.mem_map.mp hmem
  exact ⟨r, hr, hseq⟩

theorem mkSeqEntries_sorted (td : List TripRow) :
    List.Sorted (fun a b => a < b)
      ((mkSeqEntries td).map (fun e => e.stop_sequence)) := by
  rw [mkSeqEntries_map_seq]
  have hsle : List.Sorted (fun a b => a ≤ b)
      (List.insertionSort (fun a b => a ≤ b)
        ((td.map (fun r => r.stop_sequence)).dedup)) := by
    haveI : IsTotal ℤ (fun a b => a ≤ b) := ⟨fun a b => le_total a b⟩
    haveI : IsTrans ℤ (fun a b => a ≤ b) := ⟨fun a b c hab hbc => le_trans hab hbc⟩
    exact List.sorted_insertionSort _ _
  have hnd : (List.insertionSort (fun a b => a ≤ b)
      ((td.map (fun r => r.stop_sequence)).dedup)).Nodup :=
    (List.perm_insertionSort _ _).symm.nodup (List.nodup_dedup _)
  exact (List.Pairwise.and hsle hnd).imp (fun h => lt_of_le_of_ne h.1 h.2)

theorem mkSeqEntries_first_seen (td : List TripRow) :
    ∀ e ∈ mkSeqEntries td, ∃ r,
      td.find? (fun x => decide (x.stop_sequence = e.stop_sequence)) = some r ∧
      e.stop_name = r.stop_name ∧ e.arrival_time = r.arrival_time ∧
      e.departure_time = r.departure_time := by
  intro e he
  unfold mkSeqEntries at he
  obtain ⟨k, hk, hsome⟩ := List.mem_filterMap.mp he
  obtain ⟨r, hr, hmk⟩ := Option.map_eq_some'.mp hsome
  subst hmk
  exact ⟨r, hr, rfl, rfl, rfl⟩

theorem mkSeqEntries_coverage (td : List TripRow) (k : ℤ) :
    k ∈ (mkSeqEntries td).map (fun e => e.stop_sequence) ↔
      k ∈ td.map (fun r => r.stop_sequence) := by
  rw [mkSeqEntries_map_seq]
  rw [(List.perm_insertionSort _ _).mem_iff]
  exact List.mem_dedup

-- ===== Claim theorems for the trip assembler =====

/-- C3 counterexample: on a fixture whose stop-times rows are physically
stored with sequence 2 before sequence 1, get_trip_info takes origin,
destination, departure and arrival from the physically first and last
rows (iloc 0 and iloc -1), not from the minimum and maximum
stop_sequence rows: the row with the minimal sequence is the one named
StopA (second conjunct), yet the returned origin is StopB and the
returned departure is the sequence-2 departure. -/
theorem get_trip_info_physical_order_cex :
    GoAPISimulator.get_trip_info simC3 "907" "20180301" "LE" =
      .ok { trip_id := "20180301-LE-907", stop_headsign := some "Union",
            origin := "StopB", destination := "StopA",
            departure_time := "08:46:00", arrival_time := "07:40:00",
            stop_sequence :=
              [{ stop_sequence := 1, stop_name := "StopA",
                 arrival_time := "07:40:00", departure_time := "07:42:00" },
               { stop_sequence := 2, stop_name := "StopB",
                 arrival_time := "08:45:00", departure_time := "08:46:00" }] } ∧
    (tripData simC3 "907" "20180301" "LE").find?
        (fun r => decide (r.stop_sequence =
          minSeq (tripData simC3 "907" "20180301" "LE"))) =
      some { trip_id := "20180301-LE-907", stop_id := "S1", stop_sequence := 1,
             arrival_time := "07:40:00", departure_time := "07:42:00",
             stop_headsign := some "Union", stop_name := "StopA" } := by
  constructor
  · rfl
  · rfl

/-- C3 amended: origin and departure always come from the physically
first row of the filtered join, destination and arrival from the
physically last row; when the rows are stored in ascending
stop_sequence order, the first row attains the minimal stop_sequence
and the last row the maximal one, so origin and destination then match
the minimum and maximum sequence rows as the spec describes. -/
theorem get_trip_info_origin_destination_when_sorted (sim : GoAPISimulator)
    (trip_id date corridor : String)
    (hne : tripData sim trip_id date corridor ≠ [])
    (hsort : List.Sorted (fun a b => a.stop_sequence ≤ b.stop_sequence)
      (tripData sim trip_id date corridor)) :
    ∃ info, sim.get_trip_info trip_id date corridor = .ok info ∧
      info.origin = ((tripData sim trip_id date corridor).head hne).stop_name ∧
      info.departure_time =
        ((tripData sim trip_id date corridor).head hne).departure_time ∧
      info.destination =
        ((tripData sim trip_id date corridor).getLast hne).stop_name ∧
      info.arrival_time =
        ((tripData sim trip_id date corridor).getLast hne).arrival_time ∧
      (∀ r ∈ tripData sim trip_id date corridor,
        ((tripData sim trip_id date corridor).head hne).stop_sequence ≤
          r.stop_sequence) ∧
      (∀ r ∈ tripData sim trip_id date corridor,
        r.stop_sequence ≤
          ((tripData sim trip_id date corridor).getLast hne).stop_sequence) := by
  obtain ⟨rMin, hhead, hok⟩ := get_trip_info_ok sim trip_id date corridor hne
  exact ⟨_, hok, rfl, rfl, rfl, rfl, sorted_head_minimal hsort hne,
    sorted_getLast_maximal hsort hne⟩

/-- Witness for the amended C3 on a fixture stored in ascending
sequence order: the returned origin is the minimal-sequence stop. -/
theorem get_trip_info_origin_destination_when_sorted_witness :
    tripData simC3s "907" "20180301" "LE" ≠ [] ∧
    ∃ info, GoAPISimulator.get_trip_info simC3s "907" "20180301" "LE" = .ok info ∧
      info.origin = "StopA" ∧ info.destination = "StopB" := by
  have hne : tripData simC3s "907" "20180301" "LE" ≠ [] := by decide
  have hsort : List.Sorted (fun a b => a.stop_sequence ≤ b.stop_sequence)
      (tripData simC3s "907" "20180301" "LE") := by decide
  obtain ⟨info, hok, ho, hdep, hd, harr, hmin, hmax⟩ :=
    get_trip_info_origin_destination_when_sorted simC3s "907" "20180301" "LE"
      hne hsort
  have hval : GoAPISimulator.get_trip_info simC3s "907" "20180301" "LE" =
      .ok { trip_id := "20180301-LE-907", stop_headsign := some "Union",
            origin := "StopA", destination := "StopB",
            departure_time := "07:42:00", arrival_time := "08:45:00",
            stop_sequence :=
              [{ stop_sequence := 1, stop_name := "StopA",
                 arrival_time := "07:40:00", departure_time := "07:42:00" },
               { stop_sequence := 2, stop_name := "StopB",
                 arrival_time := "08:45:00", departure_time := "08:46:00" }] } := by
    rfl
  have hinfo := Except.ok.inj (hok.symm.trans hval)
  exact ⟨hne, info, hok, by rw [hinfo], by rw [hinfo]⟩

/-- C8, evaluated at the failing input: the minimum-sequence row of
trip 903 has a null stop_headsign, and get_trip_info returns a result
whose stop_headsign is null instead of raising the Missing
stop_headsign ValueError: the except IndexError guard in the source
never fires, because values[0] of a present row with a NaN headsign
cell returns NaN rather than raising IndexError. -/
theorem get_trip_info_null_headsign_not_rejected :
    GoAPISimulator.get_trip_info simC8 "903" "20180301" "LE" =
      .ok { trip_id := "20180301-LE-903", stop_headsign := none,
            origin := "StopA", destination := "StopB",
            departure_time := "07:42:00", arrival_time := "08:45:00",
            stop_sequence :=
              [{ stop_sequence := 1, stop_name := "StopA",
                 arrival_time := "07:40:00", departure_time := "07:42:00" },
               { stop_sequence := 2, stop_name := "StopB",
                 arrival_time := "08:45:00", departure_time := "08:46:00" }] } := by
  rfl

/-- C9: whenever the trip is found, the stop_sequence list of the
result is sorted strictly ascending by stop_sequence (hence free of
duplicate sequence numbers), its sequence values are exactly the
distinct sequence values of the joined rows, and each entry carries the
fields of the first joined row holding its sequence value (first-seen
representative). -/
theorem trip_stop_sequence_sorted_first_seen (sim : GoAPISimulator)
    (trip_id date corridor : String)
    (hne : tripData sim trip_id date corridor ≠ []) :
    ∃ info, sim.get_trip_info trip_id date corridor = .ok info ∧
      List.Sorted (fun a b => a < b)
        (info.stop_sequence.map (fun e => e.stop_sequence)) ∧
      (∀ k, k ∈ info.stop_sequence.map (fun e => e.stop_sequence) ↔
        k ∈ (tripData sim trip_id date corridor).map (fun r => r.stop_sequence)) ∧
      (∀ e ∈ info.stop_sequence, ∃ r,
        (tripData sim trip_id date corridor).find?
          (fun x => decide (x.stop_sequence = e.stop_sequence)) = some r ∧
        e.stop_name = r.stop_name ∧ e.arrival_time = r.arrival_time ∧
        e.departure_time = r.departure_time) := by
  obtain ⟨rMin, hhead, hok⟩ := get_trip_info_ok sim trip_id date corridor hne
  refine ⟨_, hok, ?_, ?_, ?_⟩
  · exact mkSeqEntries_sorted _
  · intro k
    exact mkSeqEntries_coverage _ k
  · exact mkSeqEntries_first_seen _

/-- Witness for C9 at a concrete two-row trip. -/
theorem trip_stop_sequence_sorted_first_seen_witness :
    tripData simC3s "907" "20180301" "LE" ≠ [] ∧
    ∃ info, GoAPISimulator.get_trip_info simC3s "907" "20180301" "LE" = .ok info ∧
      List.Sorted (fun a b => a < b)
        (info.stop_sequence.map (fun e => e.stop_sequence)) := by
  have hne : tripData simC3s "907" "20180301" "LE" ≠ [] := by decide
  obtain ⟨info, hok, hs, _, _⟩ :=
    trip_stop_sequence_sorted_first_seen simC3s "907" "20180301" "LE" hne
  exact ⟨hne, info, hok, hs⟩

-- ===== Claim theorems for initialization =====

theorem init_stop_time_clean_eq (calendar_dates : List CalendarDate)
    (trips : List Trip) (stop_times : List StopTime) (stops : List Stop)
    (em : String → List ℝ) (l101_df : List L101Row) (l102_df : List L102Row)
    (dci : List DelayCodeInfoRow) (sd ed : ℤ) (corridor : String) :
    (GoAPISimulator.init calendar_dates trips stop_times stops em l101_df
      l102_df dci sd ed corridor).stop_time_clean =
      stop_times.filter (fun st => decide (st.trip_id ∈
        (((validTrips calendar_dates trips sd ed corridor).map
          (fun t => t.trip_id)).dedup))) := rfl

theorem init_delay_logs_eq (calendar_dates : List CalendarDate)
    (trips : List Trip) (stop_times : List StopTime) (stops : List Stop)
    (em : String → List ℝ) (l101_df : List L101Row) (l102_df : List L102Row)
    (dci : List DelayCodeInfoRow) (sd ed : ℤ) (corridor : String) :
    (GoAPISimulator.init calendar_dates trips stop_times stops em l101_df
      l102_df dci sd ed corridor).delay_logs_clean_df =
      List.insertionSort (fun a b => a.OperationDateTime ≤ b.OperationDateTime)
        ((merge_data l101_df l102_df dci).filter (fun r =>
          decide (date_2018_03_01 ≤ dt_date r.OperationDateTime ∧
            dt_date r.OperationDateTime ≤ date_2018_03_08 ∧
            r.CorridorId = corridor ∧ r.DelayCode ≠ none))) := rfl

/-- C4 counterexample: a configuration whose service-date and corridor
filter yields zero trips does not fail at initialization: it completes
and produces a store with an empty stop-times table that answers
not-found for a later trip query, exactly the behavior the claim says
must be replaced by an EmptyResultError. -/
theorem init_zero_trips_cex :
    simC4.stop_time_clean = [] ∧
    simC4.get_trip_info "907" "20180301" "LE" =
      .error (.valueError "Trip ID 20180301-LE-907 not found.") :=
  ⟨rfl, rfl⟩

/-- C4 amended: initialization performs no emptiness check; whenever
the service-date and corridor filter yields zero trips it completes
with an empty stop_time_clean table, and every later get_trip_info
query reports trip-not-found instead. -/
theorem init_zero_trips_completes_not_found (calendar_dates : List CalendarDate)
    (trips : List Trip) (stop_times : List StopTime) (stops : List Stop)
    (em : String → List ℝ) (l101_df : List L101Row) (l102_df : List L102Row)
    (dci : List DelayCodeInfoRow) (sd ed : ℤ) (corridor : String)
    (hzero : validTrips calendar_dates trips sd ed corridor = []) :
    (GoAPISimulator.init calendar_dates trips stop_times stops em l101_df
      l102_df dci sd ed corridor).stop_time_clean = [] ∧
    ∀ trip_id date cor2,
      (GoAPISimulator.init calendar_dates trips stop_times stops em l101_df
        l102_df dci sd ed corridor).get_trip_info trip_id date cor2 =
      .error (.valueError ("Trip ID " ++ (date ++ "-" ++ cor2 ++ "-" ++ trip_id)
        ++ " not found.")) := by
  have h1 : (GoAPISimulator.init calendar_dates trips stop_times stops em
      l101_df l102_df dci sd ed corridor).stop_time_clean = [] := by
    rw [init_stop_time_clean_eq, hzero]
    simp
  refine ⟨h1, ?_⟩
  intro tid d c
  have htd : tripData (GoAPISimulator.init calendar_dates trips stop_times stops
      em l101_df l102_df dci sd ed corridor) tid d c = [] := by
    simp [tripData, h1, mergeStops]
  simp only [GoAPISimulator.get_trip_info]
  rw [dif_pos htd]

/-- Witness for the amended C4 at a concrete empty-filter input. -/
theorem init_zero_trips_completes_not_found_witness :
    validTrips [{ service_id := 20180301 }] [] 20180301 20180308 "LE" = [] ∧
    (GoAPISimulator.init [{ service_id := 20180301 }] [] [stSeq1] stopTableC3
      (fun _ => []) [] [] [] 20180301 20180308 "LE").stop_time_clean = [] := by
  have hz : validTrips [{ service_id := 20180301 }] [] 20180301 20180308 "LE" =
      [] := rfl
  exact ⟨hz, (init_zero_trips_completes_not_found [{ service_id := 20180301 }]
    [] [stSeq1] stopTableC3 (fun _ => []) [] [] [] 20180301 20180308 "LE" hz).1⟩

/-- C5 counterexample: an initialization configured with the April
window 20180401..20180402 still retains a delay record stamped
2018-03-05 (epoch day 17595, four days after 2018-03-01): the delay-log
date filter is hardcoded to 2018-03-01..2018-03-08 and does not follow
the configured window used for the trip filter. -/
theorem delay_window_hardcoded_cex :
    simC5april.delay_logs_clean_df = [delayRowMarch5] ∧
    dt_date delayRowMarch5.OperationDateTime = date_2018_03_01 + 4 :=
  ⟨rfl, rfl⟩

/-- C5 amended: the delay-log snapshot holds exactly (as a permutation)
the merge_data join rows whose operation date lies in the hardcoded
2018-03-01..2018-03-08 window (the configured start and end dates are
ignored by this filter), whose corridor equals the configured corridor
and whose delay code is non-null, sorted ascending by operation
timestamp; consequently the snapshot is identical under any two
configured date windows. -/
theorem delay_logs_snapshot_fixed_window (calendar_dates : List CalendarDate)
    (trips : List Trip) (stop_times : List StopTime) (stops : List Stop)
    (em : String → List ℝ) (l101_df : List L101Row) (l102_df : List L102Row)
    (dci : List DelayCodeInfoRow) (sd ed sd2 ed2 : ℤ) (corridor : String) :
    ((GoAPISimulator.init calendar_dates trips stop_times stops em l101_df
        l102_df dci sd ed corridor).delay_logs_clean_df).Perm
      ((merge_data l101_df l102_df dci).filter (fun r =>
        decide (date_2018_03_01 ≤ dt_date r.OperationDateTime ∧
          dt_date r.OperationDateTime ≤ date_2018_03_08 ∧
          r.CorridorId = corridor ∧ r.DelayCode ≠ none))) ∧
    List.Sorted (fun a b => a.OperationDateTime ≤ b.OperationDateTime)
      ((GoAPISimulator.init calendar_dates trips stop_times stops em l101_df
        l102_df dci sd ed corridor).delay_logs_clean_df) ∧
    (GoAPISimulator.init calendar_dates trips stop_times stops em l101_df
      l102_df dci sd ed corridor).delay_logs_clean_df =
    (GoAPISimulator.init calendar_dates trips stop_times stops em l101_df
      l102_df dci sd2 ed2 corridor).delay_logs_clean_df := by
  refine ⟨?_, ?_, rfl⟩
  · rw [init_delay_logs_eq]
    exact List.perm_insertionSort _ _
  · rw [init_delay_logs_eq]
    haveI : IsTotal DelayLogRow
        (fun a b => a.OperationDateTime ≤ b.OperationDateTime) :=
      ⟨fun a b => le_total _ _⟩
    haveI : IsTrans DelayLogRow
        (fun a b => a.OperationDateTime ≤ b.OperationDateTime) :=
      ⟨fun a b c hab hbc => le_trans hab hbc⟩
    exact List.sorted_insertionSort _ _

end TransitTalk
